import Mathlib

/-!
Verification of the mpd album-art viewer (src/main.rs) against its
natural-language specification.

The program is shallowly embedded: `f64` arithmetic is modelled over `ℚ`
(with `as usize` truncation as `Int.toNat ∘ Int.floor`), Rust `usize`
values as `ℕ` with Rust's subtraction underflow made explicit, instants
and durations as whole seconds, and the interaction of one update tick
with the outside world (thread `is_finished` polls, worker results,
protocol replies) as an explicit `TickEnv` record.  Worker spawns and
joins are recorded as an event trace so the spawn/join discipline can be
stated.
-/

namespace AlbumArtViewer

/-! ## Data model -/

/-- Path components of a song's file (`Song.file`), modelled component-wise
so that `std::path::Path::parent` is `dropLast` on a non-empty path. -/
abbrev SongPath := List String

/-- `std::path::Path::parent`, component-wise: the parent of a non-empty path
drops the last component; the empty path has no parent. -/
def pathParent (p : SongPath) : Option SongPath :=
  if p = [] then none else some p.dropLast

/-- `mpd::song::Song`, restricted to the fields the program reads; equality
is full structural identity, as in the derived `PartialEq`. -/
structure Song where
  file : SongPath
  artist : Option String
  title : Option String
deriving DecidableEq, Repr

/-- `mpd::status::State`. -/
inductive MpdState where
  | Stop
  | Play
  | Pause
deriving DecidableEq, Repr

/-- `mpd::status::Status`, restricted to the fields the program reads:
playback state and the optional `(elapsed, total)` pair in whole seconds. -/
structure MpdStatus where
  state : MpdState
  time : Option (Nat × Nat)
deriving DecidableEq, Repr

/-- `Status::default()`: stopped, no time pair. -/
def MpdStatus.default : MpdStatus := { state := .Stop, time := none }

/-- The protocol client handle (`mpd::client::Client`); it carries an identity
so that ownership transfer between foreground and fetch worker is visible. -/
structure MpdClient where
  id : Nat
deriving DecidableEq, Repr

/-- Raw image bytes (`Vec<u8>`). -/
abbrev Bytes := List Nat

/-- `image::DynamicImage`, abstracted to its pixel dimensions, which is all
the layout computation reads. -/
structure DynamicImage where
  width : Nat
  height : Nat
deriving DecidableEq, Repr

/-- The style modifiers the program uses (`ratatui::style::Modifier`). -/
inductive Modifier where
  | DIM
  | REVERSED
  | BOLD
deriving DecidableEq, Repr

/-- `ratatui::text::Span`: a content string with style modifiers. -/
structure Span where
  content : String
  modifiers : List Modifier
deriving DecidableEq, Repr

/-- `ratatui::text::Text`: a list of lines, each a list of spans. -/
structure Text where
  lines : List (List Span)
deriving DecidableEq, Repr

/-- `Text::height()`: the number of lines. -/
def Text.height (t : Text) : Nat := t.lines.length

/-- The display width of one line: the sum of its spans' content lengths. -/
def lineWidth (l : List Span) : Nat := (l.map (fun s => s.content.length)).sum

/-- `Text::width()`: the maximum line width. -/
def Text.width (t : Text) : Nat := (t.lines.map lineWidth).foldr max 0

/-- `ratatui::layout::Rect`, in character cells. -/
structure Rect where
  x : Nat
  y : Nat
  width : Nat
  height : Nat
deriving DecidableEq, Repr

/-! ## Layout constants (src/main.rs lines 285-291) -/

def VERT_VIEWPORT_GAP : Nat := 3
def VERT_BORDER_WIDTH : Nat := 1
def VERT_PADDING : Nat := 1

def HORIZ_VIEWPORT_GAP : Nat := 6
def HORIZ_BORDER_WIDTH : Nat := 1
def HORIZ_PADDING : Nat := 2

/-- `App::UPDATE_PERIOD`, in whole seconds. -/
def UPDATE_PERIOD : Nat := 1

/-! ## The image state machine (src/main.rs lines 101-260) -/

/-- `ImgState`.  A `Fetching` worker owns the protocol client and returns it
on join, so the variant records the client it holds.  The bytes a fetch
worker will return and a `Converting` worker's result are supplied by the
environment at poll time, so those variants carry no further data. -/
inductive ImgState where
  | Idle : Option (DynamicImage × Text) → ImgState
  | Fetching : MpdClient → ImgState
  | Converting : ImgState
deriving DecidableEq, Repr

/-- `ImgState::default()` (lines 256-260). -/
def ImgState.default : ImgState := .Idle none

/-- `ImgState::is_fetching` (lines 118-120). -/
def ImgState.is_fetching : ImgState → Bool
  | .Fetching _ => true
  | _ => false

/-- `ImgState::is_converting` (lines 122-124). -/
def ImgState.is_converting : ImgState → Bool
  | .Converting => true
  | _ => false

/-- `ImgState::set_idle` (lines 126-129): replaces the whole state. -/
def ImgState.set_idle (_s : ImgState) (st : Option (DynamicImage × Text)) :
    ImgState :=
  .Idle st

/-- `ImgState::start_fetching` (lines 131-147): moves the client into a newly
spawned fetch worker and replaces the state with `Fetching`, whatever it was
before.  The bytes the worker will return are supplied by the environment on
join. -/
def ImgState.start_fetching (_s : ImgState) (client : MpdClient)
    (_song : Option Song) : ImgState :=
  .Fetching client

/-- `ImgState::try_finish_fetching` (lines 149-166): if a fetch worker exists
and its thread has finished, swap the state for the default `Idle None`, join
the worker, and return the client together with the fetched bytes; otherwise
leave the state alone and return nothing.  `finished` models
`JoinHandle::is_finished` and `bytes` the joined worker's payload. -/
def ImgState.try_finish_fetching (s : ImgState) (finished : Bool)
    (bytes : Option Bytes) : ImgState × Option (MpdClient × Option Bytes) :=
  match s with
  | .Fetching c =>
      if finished then (.Idle none, some (c, bytes)) else (.Fetching c, none)
  | s => (s, none)

/-- `ImgState::start_converting` (lines 168-230): spawns the decode+convert
worker and replaces the state with `Converting`.  The worker's eventual
result is supplied by the environment on join. -/
def ImgState.start_converting (_s : ImgState) (_bytes : Bytes) : ImgState :=
  .Converting

/-- `ImgState::try_finish_converting` (lines 232-253): if a conversion worker
exists and has finished, swap the state for `Idle None` and join, returning
the worker's optional result (`none` both when the worker failed and when no
finished worker exists — exactly the ambiguity of the source's return
value). -/
def ImgState.try_finish_converting (s : ImgState) (finished : Bool)
    (result : Option (DynamicImage × Text)) :
    ImgState × Option (DynamicImage × Text) :=
  match s with
  | .Converting => if finished then (.Idle none, result) else (.Converting, none)
  | s => (s, none)

/-! ## Application state (src/main.rs lines 262-324) -/

/-- `State` (lines 268-274). -/
structure AppState where
  viewport_area : Rect
  current_song : Option Song
  mpd_status : MpdStatus
  img_state : ImgState
deriving DecidableEq, Repr

/-- `App` (lines 276-283).  The font object is retained only as its aspect
ratio (`font.width / font.height`), modelled as a rational. -/
structure App where
  client : Option MpdClient
  font_aspect : ℚ
  state : AppState
  last_update_time : Option Nat
  exit : Bool
deriving DecidableEq, Repr

/-- `App::create` (lines 298-324) followed by `App::run` storing the
terminal's viewport (line 327): fresh connected client, default state,
no update timestamp yet. -/
def App.create (client : MpdClient) (font_aspect : ℚ) (viewport : Rect) :
    App :=
  { client := some client
    font_aspect := font_aspect
    state :=
      { viewport_area := viewport
        current_song := none
        mpd_status := MpdStatus.default
        img_state := ImgState.default }
    last_update_time := none
    exit := false }

/-! ## One update tick (src/main.rs lines 369-428) -/

/-- `App::songs_in_same_dir` (lines 369-374). -/
def songs_in_same_dir (song0 song1 : Song) : Bool :=
  decide (pathParent song0.file = pathParent song1.file)

/-- The album-art-changed test inside `App::update_app_state`
(lines 397-402). -/
def album_art_changed (old_song new_song : Option Song) : Bool :=
  match old_song, new_song with
  | none, none => false
  | some song0, some song1 =>
      if song0 = song1 then false else ! songs_in_same_dir song0 song1
  | _, _ => true

/-- A protocol error surfaced through `?` in `update_app_state`. -/
inductive MpdError where
  | err
deriving DecidableEq, Repr

/-- One tick's interaction with the outside world: whether each in-flight
worker's thread reports `is_finished()`, what a finishing worker returns,
and the protocol client's replies to `status()` and `currentsong()`. -/
structure TickEnv where
  fetchFinished : Bool
  fetchedBytes : Option Bytes
  convFinished : Bool
  convResult : Option (DynamicImage × Text)
  statusResult : Except MpdError MpdStatus
  songResult : Except MpdError (Option Song)
deriving Repr

/-- Worker spawn/join events emitted during one tick: `thread::spawn` in
`start_fetching` / `start_converting`, `JoinHandle::join` in the
`try_finish_*` functions. -/
inductive WorkerEvent where
  | spawnFetch
  | joinFetch
  | spawnConv
  | joinConv
deriving DecidableEq, Repr

/-- How a tick can fail: a propagated protocol error (`?`), or a panic
(`assert!` / `unwrap`). -/
inductive TickError where
  | mpd
  | panicked
deriving DecidableEq, Repr

/-- The part of `App::update_app_state` from line 393 on: with the client in
hand, poll status and the current song, evaluate `album_art_changed`, and
either start a fetch (dropping any freshly fetched bytes), start converting
freshly fetched bytes, or poll a running conversion.  `new_img_bytes` holds
bytes produced by a fetch joined earlier in the same tick; `evs` the events
already emitted in this tick. -/
def update_poll_phase (a : App) (env : TickEnv) (new_img_bytes : Option Bytes)
    (evs : List WorkerEvent) : Except TickError App × List WorkerEvent :=
  match a.client with
  | none => (.error .panicked, evs)
  | some client =>
    match env.statusResult with
    | .error _ => (.error .mpd, evs)
    | .ok mpd_status =>
      match env.songResult with
      | .error _ => (.error .mpd, evs)
      | .ok new_song =>
        if album_art_changed a.state.current_song new_song then
          (.ok { a with
                  client := none,
                  state := { a.state with
                              mpd_status := mpd_status,
                              current_song := new_song,
                              img_state :=
                                a.state.img_state.start_fetching client new_song } },
           evs ++ [.spawnFetch])
        else
          match new_img_bytes with
          | some bytes =>
              (.ok { a with
                      state := { a.state with
                                  mpd_status := mpd_status,
                                  current_song := new_song,
                                  img_state :=
                                    a.state.img_state.start_converting bytes } },
               evs ++ [.spawnConv])
          | none =>
              if a.state.img_state.is_converting then
                match a.state.img_state.try_finish_converting
                        env.convFinished env.convResult with
                | (s1, some v) =>
                    (.ok { a with
                            state := { a.state with
                                        mpd_status := mpd_status,
                                        current_song := new_song,
                                        img_state := s1.set_idle (some v) } },
                     evs ++ [.joinConv])
                | (s1, none) =>
                    (.ok { a with
                            state := { a.state with
                                        mpd_status := mpd_status,
                                        current_song := new_song,
                                        img_state := s1 } },
                     if env.convFinished then evs ++ [.joinConv] else evs)
              else
                (.ok { a with
                        state := { a.state with
                                    mpd_status := mpd_status,
                                    current_song := new_song } },
                 evs)

/-- `App::update_app_state` (lines 376-428) as one tick: from the current app
and the tick's environment, produce the updated app (or the propagated
error / panic) together with the tick's worker events. -/
def update_app_state (a : App) (env : TickEnv) :
    Except TickError App × List WorkerEvent :=
  match a.client with
  | some _ => update_poll_phase a env none []
  | none =>
      if a.state.img_state.is_fetching then
        match a.state.img_state.try_finish_fetching
                env.fetchFinished env.fetchedBytes with
        | (_, none) => (.ok a, [])
        | (s1, some (client, new_bytes)) =>
            update_poll_phase
              { a with
                  client := some client,
                  state := { a.state with img_state := s1.set_idle none } }
              env new_bytes [.joinFetch]
      else (.error .panicked, [])

/-- `App::elapsed_since_update` (lines 430-436), over whole seconds. -/
def elapsed_since_update (a : App) (now : Nat) : Nat :=
  match a.last_update_time with
  | none => UPDATE_PERIOD
  | some t => now - t

/-- The tick gate in `App::handle_events` (line 355): `update_app_state` is
invoked when this is true. -/
def should_update (a : App) (now : Nat) : Bool :=
  elapsed_since_update a now ≥ UPDATE_PERIOD

/-! ## Reachability and the ownership invariant -/

/-- States of the update loop reachable from startup through successful
ticks — the observation points between ticks. -/
inductive Reachable : App → Prop where
  | init : ∀ c fa vp, Reachable (App.create c fa vp)
  | step : ∀ a env a' evs, Reachable a →
      update_app_state a env = (.ok a', evs) → Reachable a'

/-- The client-ownership invariant: the foreground's `client` slot is empty
exactly when a `Fetching` worker holds the client — never both, never
neither. -/
def clientInv (a : App) : Prop :=
  a.client.isNone = a.state.img_state.is_fetching

/-! ## Worker spawn/join discipline -/

/-- The kind of worker the state-machine variant currently tracks. -/
inductive PendKind where
  | fetchK
  | convK
deriving DecidableEq, Repr

/-- The worker, if any, whose handle the state machine currently holds. -/
def pendingOf : ImgState → Option PendKind
  | .Idle _ => none
  | .Fetching _ => some .fetchK
  | .Converting => some .convK

/-- The spawn/join discipline the claim states: scanning a tick's worker
events with the currently pending (spawned, unjoined) worker, a spawn is
legal only when nothing is pending, and a pending worker is joined exactly
once by the matching join.  `none` marks a violation; otherwise the pending
worker after the events is returned. -/
def scanStrict : List WorkerEvent → Option PendKind → Option (Option PendKind)
  | [], p => some p
  | .spawnFetch :: rest, none => scanStrict rest (some .fetchK)
  | .spawnConv :: rest, none => scanStrict rest (some .convK)
  | .joinFetch :: rest, some .fetchK => scanStrict rest none
  | .joinConv :: rest, some .convK => scanStrict rest none
  | _, _ => none

/-- The discipline the code actually obeys: as `scanStrict`, except that a
fetch worker may be spawned while a conversion worker is pending — at that
moment `start_fetching` overwrites the `Converting` state and the conversion
worker's handle is discarded without ever being joined. -/
def scanRelaxed : List WorkerEvent → Option PendKind → Option (Option PendKind)
  | [], p => some p
  | .spawnFetch :: rest, none => scanRelaxed rest (some .fetchK)
  | .spawnFetch :: rest, some .convK => scanRelaxed rest (some .fetchK)
  | .spawnConv :: rest, none => scanRelaxed rest (some .convK)
  | .joinFetch :: rest, some .fetchK => scanRelaxed rest none
  | .joinConv :: rest, some .convK => scanRelaxed rest none
  | _, _ => none

/-! ## Layout engine -/

/-- Rust `usize` subtraction `a - b` underflows (a panic in a debug build, a
wrap-around in release) exactly when the subtrahend exceeds the minuend;
the source performs no clamping before its viewable-area subtractions. -/
def usize_sub_underflows (a b : Nat) : Prop := a < b

/-- The target-width computation inside the conversion worker spawned by
`ImgState::start_converting` (lines 178-213): subtract the fixed margins
from the viewport, compare the image's aspect ratio against the viewable
area's aspect ratio (corrected by the font aspect), and pick the
width-constrained or height-constrained width.  `f64` arithmetic is modelled
over ℚ and the `as usize` cast as `Int.toNat ∘ Int.floor`. -/
def conv_target_width (area : Rect) (font_aspect : ℚ) (img : DynamicImage) :
    Nat :=
  if (img.width : ℚ) / (img.height : ℚ) >
      ((area.width - (HORIZ_VIEWPORT_GAP + HORIZ_BORDER_WIDTH + HORIZ_PADDING) * 2
          : Nat) : ℚ) * font_aspect /
        ((area.height - (VERT_VIEWPORT_GAP + VERT_BORDER_WIDTH + VERT_PADDING) * 2
          : Nat) : ℚ) then
    area.width - (HORIZ_VIEWPORT_GAP + HORIZ_BORDER_WIDTH + HORIZ_PADDING) * 2
  else
    (⌊((area.height - (VERT_VIEWPORT_GAP + VERT_BORDER_WIDTH + VERT_PADDING) * 2
          : Nat) : ℚ) *
        ((img.width : ℚ) / (img.height : ℚ)) / font_aspect⌋).toNat

/-- The Layout Engine width rule in the spec's own words (§8): with
`viewable_width = area.width − 18` and `viewable_height = area.height − 10`,
the chosen width is the full viewable width when
`image_aspect > viewport_aspect`, else the truncation of
`viewable_height * image_aspect / font_aspect`. -/
def spec_chosen_width (area : Rect) (font_aspect : ℚ) (img : DynamicImage) :
    Nat :=
  if (img.width : ℚ) / (img.height : ℚ) >
      ((area.width - 18 : Nat) : ℚ) * font_aspect /
        ((area.height - 10 : Nat) : ℚ) then
    area.width - 18
  else
    (⌊((area.height - 10 : Nat) : ℚ) * ((img.width : ℚ) / (img.height : ℚ)) /
        font_aspect⌋).toNat

/-! ## Panel sizing (`App::create_paragraph`, lines 482-519) -/

/-- The image-branch panel size (lines 483-487): the text's size plus border
and padding on each axis, with the fixed small vertical padding. -/
def image_panel_sizing (textW textH : Nat) : Nat × Nat × Nat :=
  (textW + (HORIZ_BORDER_WIDTH + HORIZ_PADDING) * 2,
   textH + (VERT_BORDER_WIDTH + VERT_PADDING) * 2,
   VERT_PADDING)

/-- The message-branch panel size (lines 488-503): a square-ish panel sized
from the smaller viewport dimension, width-driven when the viewable area is
taller than wide, height-driven otherwise. -/
def message_panel_sizing (font_aspect : ℚ) (vp : Rect) : Nat × Nat × Nat :=
  if ((vp.width - HORIZ_VIEWPORT_GAP * 2 : Nat) : ℚ) * font_aspect /
      ((vp.height - VERT_VIEWPORT_GAP * 2 : Nat) : ℚ) < 1 then
    (vp.width - HORIZ_VIEWPORT_GAP * 2,
     (⌊((vp.width - HORIZ_VIEWPORT_GAP * 2 : Nat) : ℚ) * font_aspect⌋).toNat,
     ((⌊((vp.width - HORIZ_VIEWPORT_GAP * 2 : Nat) : ℚ) * font_aspect⌋).toNat
        - 2 * VERT_BORDER_WIDTH - 1) / 2)
  else
    ((⌊((vp.height - VERT_VIEWPORT_GAP * 2 : Nat) : ℚ) / font_aspect⌋).toNat,
     vp.height - VERT_VIEWPORT_GAP * 2,
     (vp.height - VERT_VIEWPORT_GAP * 2) / 2 - VERT_BORDER_WIDTH - 2)

/-- The width/height/vertical-padding choice of `App::create_paragraph`
(lines 482-504): the image branch when the text is more than one row high,
else the square-ish message branch. -/
def create_paragraph_sizing (font_aspect : ℚ) (vp : Rect) (text : Text) :
    Nat × Nat × Nat :=
  if 1 < text.height then
    (text.width + (HORIZ_BORDER_WIDTH + HORIZ_PADDING) * 2,
     text.height + (VERT_BORDER_WIDTH + VERT_PADDING) * 2,
     VERT_PADDING)
  else
    if ((vp.width - HORIZ_VIEWPORT_GAP * 2 : Nat) : ℚ) * font_aspect /
        ((vp.height - VERT_VIEWPORT_GAP * 2 : Nat) : ℚ) < 1 then
      (vp.width - HORIZ_VIEWPORT_GAP * 2,
       (⌊((vp.width - HORIZ_VIEWPORT_GAP * 2 : Nat) : ℚ) * font_aspect⌋).toNat,
       ((⌊((vp.width - HORIZ_VIEWPORT_GAP * 2 : Nat) : ℚ) * font_aspect⌋).toNat
          - 2 * VERT_BORDER_WIDTH - 1) / 2)
    else
      ((⌊((vp.height - VERT_VIEWPORT_GAP * 2 : Nat) : ℚ) / font_aspect⌋).toNat,
       vp.height - VERT_VIEWPORT_GAP * 2,
       (vp.height - VERT_VIEWPORT_GAP * 2) / 2 - VERT_BORDER_WIDTH - 2)

/-! ## Render content selection (lines 548-559) -/

/-- The dimmed "No image" placeholder (line 549). -/
def no_image_text : Text :=
  ⟨[[{ content := "No image", modifiers := [.DIM] }]]⟩

/-- The dimmed "Converting image" placeholder (line 550). -/
def converting_image_text : Text :=
  ⟨[[{ content := "Converting image", modifiers := [.DIM] }]]⟩

/-- The dimmed "Fetching image" placeholder (line 551). -/
def fetching_image_text : Text :=
  ⟨[[{ content := "Fetching image", modifiers := [.DIM] }]]⟩

/-- The content selection match in `impl Widget for &App` (lines 552-557). -/
def render_selected_text : ImgState → Text
  | .Idle (some (_, text)) => text
  | .Idle none => no_image_text
  | .Fetching _ => fetching_image_text
  | .Converting => converting_image_text

/-! ## Concrete fixtures for the witnesses and the counterexample run -/

/-- Track 1 of album directory `music/albumX`. -/
def songA : Song :=
  { file := ["music", "albumX", "track1.flac"], artist := none, title := none }

/-- Track 2 of the same directory `music/albumX`. -/
def songA2 : Song :=
  { file := ["music", "albumX", "track2.flac"], artist := none, title := none }

/-- A track of a different directory `music/albumY`. -/
def songB : Song :=
  { file := ["music", "albumY", "track9.flac"], artist := none, title := none }

def client7 : MpdClient := ⟨7⟩

def vp0 : Rect := ⟨0, 0, 80, 24⟩

/-- Startup state of the concrete runs. -/
def app0c : App := App.create client7 1 vp0

/-- Tick 1 environment: the current track appears (no-track → track A);
no worker is in flight. -/
def env1c : TickEnv :=
  { fetchFinished := false, fetchedBytes := none, convFinished := false,
    convResult := none, statusResult := .ok MpdStatus.default,
    songResult := .ok (some songA) }

/-- After tick 1: a fetch for track A is in flight and holds the client. -/
def app1c : App :=
  { client := none, font_aspect := 1,
    state := { viewport_area := vp0, current_song := some songA,
               mpd_status := MpdStatus.default,
               img_state := .Fetching client7 },
    last_update_time := none, exit := false }

/-- Tick 2 environment: the fetch worker finished with bytes, track still A. -/
def env2c : TickEnv :=
  { fetchFinished := true, fetchedBytes := some [1, 2, 3], convFinished := false,
    convResult := none, statusResult := .ok MpdStatus.default,
    songResult := .ok (some songA) }

/-- After tick 2: the client is back and a conversion worker is in flight. -/
def app2c : App :=
  { client := some client7, font_aspect := 1,
    state := { viewport_area := vp0, current_song := some songA,
               mpd_status := MpdStatus.default,
               img_state := .Converting },
    last_update_time := none, exit := false }

/-- Tick 3 environment: the track changes to another directory while the
conversion worker is still running (`convFinished = false`). -/
def env3c : TickEnv :=
  { fetchFinished := false, fetchedBytes := none, convFinished := false,
    convResult := none, statusResult := .ok MpdStatus.default,
    songResult := .ok (some songB) }

/-- After tick 3: a fresh fetch for track B is in flight — the `Converting`
handle was overwritten, never joined. -/
def app3c : App :=
  { client := none, font_aspect := 1,
    state := { viewport_area := vp0, current_song := some songB,
               mpd_status := MpdStatus.default,
               img_state := .Fetching client7 },
    last_update_time := none, exit := false }

/-- Tick environment observing a same-directory track change (A → A2) with
the client in the foreground. -/
def env4c : TickEnv :=
  { fetchFinished := false, fetchedBytes := none, convFinished := false,
    convResult := none, statusResult := .ok MpdStatus.default,
    songResult := .ok (some songA2) }

/-- A foreground-owned state currently on track A, machine idle. -/
def app4c : App :=
  { client := some client7, font_aspect := 1,
    state := { viewport_area := vp0, current_song := some songA,
               mpd_status := MpdStatus.default,
               img_state := .Idle none },
    last_update_time := none, exit := false }

/-- `app4c` after observing the same-directory change: no new worker. -/
def app4c' : App :=
  { client := some client7, font_aspect := 1,
    state := { viewport_area := vp0, current_song := some songA2,
               mpd_status := MpdStatus.default,
               img_state := .Idle none },
    last_update_time := none, exit := false }

/-- Tick 2 environment variant where the track also changes directory while
the finished fetch delivered bytes (for C5). -/
def env5c : TickEnv :=
  { fetchFinished := true, fetchedBytes := some [1, 2, 3], convFinished := false,
    convResult := none, statusResult := .ok MpdStatus.default,
    songResult := .ok (some songB) }

/-- A single-row text, as produced by a conversion that yielded one row. -/
def one_row_text : Text := ⟨[[{ content := "####", modifiers := [] }]]⟩

/-! ## Tick case analysis -/

/-- Everything a successful poll phase guarantees: the protocol calls
succeeded, the tick's new events are well disciplined with respect to the
worker tracked on entry, the ownership invariant holds on exit, the update
timestamp is untouched, a fetch is spawned exactly when `album_art_changed`,
a conversion is spawned only for freshly fetched bytes, and no fetch join
occurs in this phase. -/
lemma update_poll_phase_ok (a : App) (env : TickEnv) (nb : Option Bytes)
    (evs0 : List WorkerEvent) (a' : App) (evs : List WorkerEvent)
    (hnf : a.state.img_state.is_fetching = false)
    (hnbc : nb = none ∨ a.state.img_state.is_converting = false)
    (h : update_poll_phase a env nb evs0 = (.ok a', evs)) :
    ∃ st ns tail, env.statusResult = .ok st ∧ env.songResult = .ok ns ∧
      evs = evs0 ++ tail ∧ clientInv a' ∧
      a'.last_update_time = a.last_update_time ∧
      a'.state.current_song = ns ∧
      scanRelaxed tail (pendingOf a.state.img_state) =
        some (pendingOf a'.state.img_state) ∧
      (WorkerEvent.spawnFetch ∈ tail ↔
        album_art_changed a.state.current_song ns = true) ∧
      (WorkerEvent.spawnConv ∈ tail → nb.isSome = true) ∧
      WorkerEvent.joinFetch ∉ tail := by
  rcases hcl : a.client with _ | client
  · simp [update_poll_phase, hcl] at h
  rcases hst : env.statusResult with e | st
  · simp [update_poll_phase, hcl, hst] at h
  rcases hsg : env.songResult with e | ns
  · simp [update_poll_phase, hcl, hst, hsg] at h
  by_cases hch : album_art_changed a.state.current_song ns = true
  · simp only [update_poll_phase, hcl, hst, hsg, hch, if_true] at h
    obtain ⟨h1, h2⟩ := Prod.mk.injEq _ _ _ _ ▸ h
    injection h1 with h1
    subst h1; subst h2
    refine ⟨st, ns, [.spawnFetch], rfl, rfl, rfl, rfl, rfl, rfl, ?_, ?_, ?_, ?_⟩
    · rcases himg : a.state.img_state with r | c | _ <;>
        simp_all [pendingOf, scanRelaxed, ImgState.is_fetching,
          ImgState.start_fetching]
    · simp [hch]
    · simp
    · simp
  · rw [Bool.not_eq_true] at hch
    rcases hnb : nb with _ | bytes
    · rcases himg : a.state.img_state with ready | c | _
      · -- Idle: not converting, nothing happens
        simp only [update_poll_phase, hcl, hst, hsg, hch, hnb, Bool.false_eq_true,
          if_false, himg, ImgState.is_converting] at h
        obtain ⟨h1, h2⟩ := Prod.mk.injEq _ _ _ _ ▸ h
        injection h1 with h1
        subst h1; subst h2
        refine ⟨st, ns, [], rfl, rfl, by simp, ?_, rfl, rfl, ?_, ?_, ?_, ?_⟩ <;>
          simp_all [clientInv, pendingOf, scanRelaxed, ImgState.is_fetching, himg]
      · simp [himg, ImgState.is_fetching] at hnf
      · -- Converting: poll the conversion worker
        rcases hcf : env.convFinished
        · simp only [update_poll_phase, hcl, hst, hsg, hch, hnb, Bool.false_eq_true,
            if_false, himg, ImgState.is_converting, ImgState.try_finish_converting,
            hcf] at h
          obtain ⟨h1, h2⟩ := Prod.mk.injEq _ _ _ _ ▸ h
          injection h1 with h1
          subst h1; subst h2
          refine ⟨st, ns, [], rfl, rfl, by simp, ?_, rfl, rfl, ?_, ?_, ?_, ?_⟩ <;>
            simp_all [clientInv, pendingOf, scanRelaxed, ImgState.is_fetching, himg]
        · rcases hcr : env.convResult with _ | v <;>
            · simp only [update_poll_phase, hcl, hst, hsg, hch, hnb, Bool.false_eq_true,
                if_false, himg, ImgState.is_converting, ImgState.try_finish_converting,
                hcf, hcr, if_true] at h
              obtain ⟨h1, h2⟩ := Prod.mk.injEq _ _ _ _ ▸ h
              injection h1 with h1
              subst h1; subst h2
              refine ⟨st, ns, [.joinConv], rfl, rfl, rfl, ?_, rfl, rfl, ?_, ?_, ?_, ?_⟩ <;>
                simp_all [clientInv, pendingOf, scanRelaxed, ImgState.is_fetching,
                  ImgState.set_idle, himg]
    · -- fresh bytes, no art change: start converting
      simp only [update_poll_phase, hcl, hst, hsg, hch, hnb, Bool.false_eq_true,
        if_false] at h
      obtain ⟨h1, h2⟩ := Prod.mk.injEq _ _ _ _ ▸ h
      injection h1 with h1
      subst h1; subst h2
      refine ⟨st, ns, [.spawnConv], rfl, rfl, rfl, ?_, rfl, rfl, ?_, ?_, ?_, ?_⟩
      · simp [clientInv, hcl, ImgState.start_converting, ImgState.is_fetching]
      · rcases himg : a.state.img_state with r | c | _ <;>
          simp_all [pendingOf, scanRelaxed, ImgState.is_fetching,
            ImgState.is_converting, ImgState.start_converting]
      · simp [hch]
      · simp [hnb]
      · simp

/-- Everything a successful tick guarantees, from a state satisfying the
ownership invariant: the invariant is preserved, the update timestamp is
never written, and the tick's worker events obey the relaxed spawn/join
discipline, tracking the state machine's variant. -/
lemma update_app_state_ok (a : App) (env : TickEnv) (a' : App)
    (evs : List WorkerEvent) (hinv : clientInv a)
    (h : update_app_state a env = (.ok a', evs)) :
    clientInv a' ∧ a'.last_update_time = a.last_update_time ∧
    scanRelaxed evs (pendingOf a.state.img_state) =
      some (pendingOf a'.state.img_state) := by
  rcases hcl : a.client with _ | client
  · have hf : a.state.img_state.is_fetching = true := by
      rw [clientInv, hcl] at hinv; exact hinv.symm
    rcases himg : a.state.img_state with r | c | _ <;>
      rw [himg] at hf <;> simp [ImgState.is_fetching] at hf
    rcases hff : env.fetchFinished
    · have h' : ((Except.ok a : Except TickError App), ([] : List WorkerEvent)) =
          (.ok a', evs) := by
        simpa only [update_app_state, hcl, himg, ImgState.is_fetching, if_true,
          ImgState.try_finish_fetching, hff, Bool.false_eq_true, if_false] using h
      obtain ⟨h1, h2⟩ := Prod.mk.injEq _ _ _ _ ▸ h'
      injection h1 with h1
      subst h1; subst h2
      exact ⟨hinv, rfl, by rw [himg]; rfl⟩
    · have h' : update_poll_phase
          { a with client := some c,
                   state := { a.state with
                                img_state := (ImgState.Idle none).set_idle none } }
          env env.fetchedBytes [.joinFetch] = (.ok a', evs) := by
        simpa only [update_app_state, hcl, himg, ImgState.is_fetching, if_true,
          ImgState.try_finish_fetching, hff] using h
      obtain ⟨st, ns, tail, _, _, hevs, hinv', hlt, _, hscan, _, _, _⟩ :=
        update_poll_phase_ok _ env env.fetchedBytes [.joinFetch] a' evs
          (by simp [ImgState.set_idle, ImgState.is_fetching])
          (Or.inr (by simp [ImgState.set_idle, ImgState.is_converting])) h'
      subst hevs
      refine ⟨hinv', hlt, ?_⟩
      show scanRelaxed tail none = some (pendingOf a'.state.img_state)
      simpa [ImgState.set_idle, pendingOf] using hscan
  · have hnf : a.state.img_state.is_fetching = false := by
      rw [clientInv, hcl] at hinv; exact hinv.symm
    have h' : update_poll_phase a env none [] = (.ok a', evs) := by
      simpa only [update_app_state, hcl] using h
    obtain ⟨st, ns, tail, _, _, hevs, hinv', hlt, _, hscan, _, _, _⟩ :=
      update_poll_phase_ok a env none [] a' evs hnf (Or.inl rfl) h'
    subst hevs
    exact ⟨hinv', hlt, by simpa using hscan⟩

/-- The ownership invariant holds in every reachable state. -/
lemma clientInv_reachable (a : App) (h : Reachable a) : clientInv a := by
  induction h with
  | init c fa vp => rfl
  | step a env a' evs _ hstep ih =>
      exact (update_app_state_ok a env a' evs ih hstep).1

/-- `album_art_changed` characterised: it holds exactly on a transition
between some-track and no-track, or on a change of the tracks' path
parents (a song equal to itself has equal parents, so identical tracks and
same-directory changes are both excluded). -/
lemma album_art_changed_iff (o n : Option Song) :
    album_art_changed o n = true ↔
      (o.isSome ≠ n.isSome ∨
       ∃ s0 s1, o = some s0 ∧ n = some s1 ∧
         pathParent s0.file ≠ pathParent s1.file) := by
  rcases o with _ | s0 <;> rcases n with _ | s1 <;>
    simp [album_art_changed, songs_in_same_dir]
  by_cases h : s0 = s1
  · subst h; simp
  · simp [h]

/-- Tick 1 of the concrete run: no-track → track A spawns a fetch. -/
lemma tick1_eq : update_app_state app0c env1c = (.ok app1c, [.spawnFetch]) := rfl

/-- Tick 2: the fetch finishes with bytes, track unchanged, so the tick
joins the fetch worker and spawns a conversion worker. -/
lemma tick2_eq :
    update_app_state app1c env2c = (.ok app2c, [.joinFetch, .spawnConv]) := rfl

/-- Tick 3: a directory-crossing track change while converting spawns a
fresh fetch — and only that event; the conversion worker is never joined. -/
lemma tick3_eq : update_app_state app2c env3c = (.ok app3c, [.spawnFetch]) := rfl

/-- The mid-conversion state of the run is reachable from startup. -/
lemma reachable_app2c : Reachable app2c :=
  Reachable.step app1c env2c app2c [.joinFetch, .spawnConv]
    (Reachable.step app0c env1c app1c [.spawnFetch]
      (Reachable.init client7 1 vp0) tick1_eq)
    tick2_eq

/-! ## Claims -/

/-- C1: at every observation point between update-loop ticks — in every
state reachable from startup through successful ticks — `App.client` is
`none` exactly when `img_state` is `Fetching`: the protocol client is owned
by the foreground or by the fetch worker, never by both and never by
neither. -/
theorem c1_client_exclusively_owned (a : App) (h : Reachable a) :
    a.client.isNone = a.state.img_state.is_fetching :=
  clientInv_reachable a h

/-- Witness for C1 at the concrete startup state. -/
theorem c1_client_exclusively_owned_witness :
    app0c.client.isNone = app0c.state.img_state.is_fetching :=
  c1_client_exclusively_owned app0c (Reachable.init client7 1 vp0)

/-- C2 fails on the code: in a concrete reachable run, tick 2 spawns a
conversion worker, and tick 3 — a track change to another directory while
that worker is still running (`convFinished = false`) — spawns a fetch
worker without the conversion worker ever being joined: `start_fetching`
overwrites the `Converting` handle, violating the claimed join-exactly-once
discipline and putting a second worker in flight. -/
theorem c2_counterexample :
    Reachable app2c ∧
    pendingOf app2c.state.img_state = some PendKind.convK ∧
    env3c.convFinished = false ∧
    update_app_state app2c env3c = (.ok app3c, [WorkerEvent.spawnFetch]) ∧
    scanStrict [WorkerEvent.spawnFetch] (pendingOf app2c.state.img_state) =
      none :=
  ⟨reachable_app2c, rfl, rfl, tick3_eq, rfl⟩

/-- C2 amended: the `ImgState` variant tracks at most one worker handle
(Idle ⇒ none), and every successful tick's spawn/join events obey the
relaxed discipline: a fetch worker is joined exactly once before any
further spawn, and a conversion worker is joined exactly once by
`try_finish_converting` — except that its handle may be discarded unjoined
when a track change spawns a fetch while the state is `Converting`. -/
theorem c2_single_worker_amended (a : App) (h : Reachable a) (env : TickEnv)
    (a' : App) (evs : List WorkerEvent)
    (hstep : update_app_state a env = (.ok a', evs)) :
    scanRelaxed evs (pendingOf a.state.img_state) =
      some (pendingOf a'.state.img_state) :=
  (update_app_state_ok a env a' evs (clientInv_reachable a h) hstep).2.2

/-- Witness for the amended C2 at tick 3 of the concrete run. -/
theorem c2_single_worker_amended_witness :
    scanRelaxed [WorkerEvent.spawnFetch] (pendingOf app2c.state.img_state) =
      some (pendingOf app3c.state.img_state) :=
  c2_single_worker_amended app2c reachable_app2c env3c app3c
    [WorkerEvent.spawnFetch] tick3_eq

/-- C3: the conversion worker's chosen width satisfies the spec's formula:
with `viewable_width = area.width − 18`, `viewable_height = area.height −
10` and `viewport_aspect = viewable_width * font_aspect / viewable_height`,
the width is the full viewable width when `image_aspect > viewport_aspect`,
and the integer truncation of `viewable_height * image_aspect /
font_aspect` otherwise. -/
theorem c3_conv_width_formula (area : Rect) (font_aspect : ℚ)
    (img : DynamicImage) :
    conv_target_width area font_aspect img =
      spec_chosen_width area font_aspect img ∧
    ((img.width : ℚ) / (img.height : ℚ) >
        ((area.width - 18 : Nat) : ℚ) * font_aspect /
          ((area.height - 10 : Nat) : ℚ) →
      conv_target_width area font_aspect img = area.width - 18) ∧
    (¬ ((img.width : ℚ) / (img.height : ℚ) >
        ((area.width - 18 : Nat) : ℚ) * font_aspect /
          ((area.height - 10 : Nat) : ℚ)) →
      conv_target_width area font_aspect img =
        (⌊((area.height - 10 : Nat) : ℚ) *
            ((img.width : ℚ) / (img.height : ℚ)) / font_aspect⌋).toNat) := by
  refine ⟨rfl, fun h => ?_, fun h => ?_⟩
  · show spec_chosen_width area font_aspect img = _
    rw [spec_chosen_width, if_pos h]
  · show spec_chosen_width area font_aspect img = _
    rw [spec_chosen_width, if_neg h]

/-- Witness for C3: a 100×40 viewport, font aspect 1/2 and a wide 300×200
image fall into the width-constrained branch. -/
theorem c3_conv_width_formula_witness :
    conv_target_width ⟨0, 0, 100, 40⟩ (1 / 2 : ℚ) ⟨300, 200⟩ = 100 - 18 :=
  (c3_conv_width_formula ⟨0, 0, 100, 40⟩ (1 / 2 : ℚ) ⟨300, 200⟩).2.1
    (by norm_num)

/-- C4: in a tick that starts with the client in the foreground (and the
ownership invariant), a fetch worker is spawned exactly when the observed
track change crosses a path-parent boundary or goes between some-track and
no-track — identical tracks and same-directory changes spawn nothing — and
such a tick never spawns a conversion worker. -/
theorem c4_fetch_iff_directory_change (a : App) (env : TickEnv)
    (c : MpdClient) (st : MpdStatus) (ns : Option Song) (a' : App)
    (evs : List WorkerEvent)
    (hinv : clientInv a) (hcl : a.client = some c)
    (hst : env.statusResult = .ok st) (hsg : env.songResult = .ok ns)
    (h : update_app_state a env = (.ok a', evs)) :
    (WorkerEvent.spawnFetch ∈ evs ↔
       (a.state.current_song.isSome ≠ ns.isSome ∨
        ∃ s0 s1, a.state.current_song = some s0 ∧ ns = some s1 ∧
          pathParent s0.file ≠ pathParent s1.file)) ∧
    WorkerEvent.spawnConv ∉ evs := by
  have hnf : a.state.img_state.is_fetching = false := by
    rw [clientInv, hcl] at hinv; exact hinv.symm
  have h' : update_poll_phase a env none [] = (.ok a', evs) := by
    simpa only [update_app_state, hcl] using h
  obtain ⟨st', ns', tail, hst', hsg', hevs, _, _, _, _, hiff, hconv, _⟩ :=
    update_poll_phase_ok a env none [] a' evs hnf (Or.inl rfl) h'
  rw [hsg] at hsg'
  injection hsg' with hns
  subst hns
  subst hevs
  exact ⟨hiff.trans (album_art_changed_iff a.state.current_song ns),
    fun hm => by simpa using hconv hm⟩

/-- Witness for C4: a same-directory track change (A → A2) spawns nothing. -/
theorem c4_fetch_iff_directory_change_witness :
    (WorkerEvent.spawnFetch ∈ ([] : List WorkerEvent) ↔
       ((some songA).isSome ≠ (some songA2).isSome ∨
        ∃ s0 s1, some songA = some s0 ∧ some songA2 = some s1 ∧
          pathParent s0.file ≠ pathParent s1.file)) ∧
    WorkerEvent.spawnConv ∉ ([] : List WorkerEvent) :=
  c4_fetch_iff_directory_change app4c env4c client7 MpdStatus.default
    (some songA2) app4c' [] rfl rfl rfl rfl rfl

/-- C5: when a finished fetch delivers bytes in the same tick as a
directory-crossing track change, the bytes are dropped — no conversion
worker is spawned for them — and a fresh fetch with the recovered client
for the new track starts in that very tick. -/
theorem c5_stale_fetch_bytes_discarded (a : App) (env : TickEnv)
    (c : MpdClient) (b : Bytes) (st : MpdStatus) (ns : Option Song)
    (hcl : a.client = none) (himg : a.state.img_state = .Fetching c)
    (hff : env.fetchFinished = true) (hb : env.fetchedBytes = some b)
    (hst : env.statusResult = .ok st) (hsg : env.songResult = .ok ns)
    (hch : album_art_changed a.state.current_song ns = true) :
    update_app_state a env =
      (.ok { a with
              client := none,
              state :=
                { a.state with
                    mpd_status := st,
                    current_song := ns,
                    img_state := .Fetching c } },
       [.joinFetch, .spawnFetch]) ∧
    WorkerEvent.spawnConv ∉ [WorkerEvent.joinFetch, WorkerEvent.spawnFetch] := by
  refine ⟨?_, by simp⟩
  simp only [update_app_state, hcl, himg, ImgState.is_fetching, if_true,
    ImgState.try_finish_fetching, hff, ImgState.set_idle, update_poll_phase,
    hst, hsg, hch, ImgState.start_fetching]
  rfl

/-- Witness for C5 at the concrete run: fetch for A finishes with bytes just
as the track moves to directory `music/albumY`. -/
theorem c5_stale_fetch_bytes_discarded_witness :
    update_app_state app1c env5c =
      (.ok { app1c with
              client := none,
              state :=
                { app1c.state with
                    mpd_status := MpdStatus.default,
                    current_song := some songB,
                    img_state := .Fetching client7 } },
       [.joinFetch, .spawnFetch]) ∧
    WorkerEvent.spawnConv ∉ [WorkerEvent.joinFetch, WorkerEvent.spawnFetch] :=
  c5_stale_fetch_bytes_discarded app1c env5c client7 [1, 2, 3]
    MpdStatus.default (some songB) rfl rfl rfl rfl rfl rfl (by decide)

/-- C6 (the claim names the intended throttle; the code has a bug): no tick
ever writes `last_update_time`, so it stays `none` in every reachable
state, `elapsed_since_update` then answers exactly `UPDATE_PERIOD` at every
instant, and the `handle_events` gate `should_update` is always true — the
loop re-runs `update_app_state` immediately instead of once per period. -/
theorem c6_update_gate_vacuous :
    (∀ a, Reachable a → a.last_update_time = none) ∧
    (∀ a now, a.last_update_time = none →
       elapsed_since_update a now = UPDATE_PERIOD ∧
       should_update a now = true) := by
  constructor
  · intro a h
    induction h with
    | init c fa vp => rfl
    | step a env a' evs hr hstep ih =>
        rw [(update_app_state_ok a env a' evs
              (clientInv_reachable a hr) hstep).2.1, ih]
  · intro a now h
    have he : elapsed_since_update a now = UPDATE_PERIOD := by
      simp [elapsed_since_update, h]
    exact ⟨he, by simp [should_update, he]⟩

/-- Witness for C6: at startup, at instant 0 — i.e. with no time elapsed at
all — the gate already passes. -/
theorem c6_update_gate_vacuous_witness :
    elapsed_since_update app0c 0 = UPDATE_PERIOD ∧
    should_update app0c 0 = true :=
  c6_update_gate_vacuous.2 app0c 0
    (c6_update_gate_vacuous.1 app0c (Reachable.init client7 1 vp0))

/-- C7: a tick that begins with the client lent to a fetch worker that has
not finished returns success with the application state identical and no
worker events — for every environment, in particular whatever the protocol
would have answered, so no status or current-song polling happens. -/
theorem c7_blocked_tick_noop (a : App) (env : TickEnv) (c : MpdClient)
    (hcl : a.client = none) (himg : a.state.img_state = .Fetching c)
    (hff : env.fetchFinished = false) :
    update_app_state a env = (.ok a, []) := by
  simp only [update_app_state, hcl, himg, ImgState.is_fetching, if_true,
    ImgState.try_finish_fetching, hff, Bool.false_eq_true, if_false]

/-- Witness for C7: the mid-fetch state with an unfinished worker. -/
theorem c7_blocked_tick_noop_witness :
    update_app_state app1c env1c = (.ok app1c, []) :=
  c7_blocked_tick_noop app1c env1c client7 rfl rfl rfl

/-- C8: the render function selects the displayed content exactly by state:
ready artwork text for `Idle (some _)`, the dimmed "No image" placeholder
for `Idle none`, the dimmed fetching/converting placeholders for
`Fetching`/`Converting`, and nothing else — every state falls into exactly
one of those four cases, and each placeholder's spans carry the DIM
modifier. -/
theorem c8_render_selection_by_state :
    (∀ img text, render_selected_text (.Idle (some (img, text))) = text) ∧
    render_selected_text (.Idle none) = no_image_text ∧
    (∀ c, render_selected_text (.Fetching c) = fetching_image_text) ∧
    render_selected_text .Converting = converting_image_text ∧
    (∀ st : ImgState,
       (∃ img text, st = .Idle (some (img, text)) ∧
          render_selected_text st = text) ∨
       (st = .Idle none ∧ render_selected_text st = no_image_text) ∨
       ((∃ c, st = .Fetching c) ∧
          render_selected_text st = fetching_image_text) ∨
       (st = .Converting ∧
          render_selected_text st = converting_image_text)) ∧
    (∀ l ∈ no_image_text.lines, ∀ sp ∈ l, Modifier.DIM ∈ sp.modifiers) ∧
    (∀ l ∈ fetching_image_text.lines, ∀ sp ∈ l, Modifier.DIM ∈ sp.modifiers) ∧
    (∀ l ∈ converting_image_text.lines, ∀ sp ∈ l,
       Modifier.DIM ∈ sp.modifiers) := by
  refine ⟨fun img text => rfl, rfl, fun c => rfl, rfl, ?_, ?_, ?_, ?_⟩
  · intro st
    rcases st with ready | c | _
    · rcases ready with _ | ⟨img, text⟩
      · exact Or.inr (Or.inl ⟨rfl, rfl⟩)
      · exact Or.inl ⟨img, text, rfl, rfl⟩
    · exact Or.inr (Or.inr (Or.inl ⟨⟨c, rfl⟩, rfl⟩))
    · exact Or.inr (Or.inr (Or.inr ⟨rfl, rfl⟩))
  all_goals decide

/-- Witness for C8: the "No image" placeholder's span is dimmed. -/
theorem c8_render_selection_by_state_witness :
    Modifier.DIM ∈ (Span.mk "No image" [Modifier.DIM]).modifiers :=
  c8_render_selection_by_state.2.2.2.2.2.1
    [Span.mk "No image" [Modifier.DIM]] (by decide)
    (Span.mk "No image" [Modifier.DIM]) (by decide)

/-- C9: the conversion worker's viewable-area subtractions are in range
exactly when the viewport is at least 18 cells wide and 10 cells high —
there is no clamping, so for any smaller viewport one of the `usize`
subtractions underflows. -/
theorem c9_viewable_margin_underflow (area : Rect) :
    (¬ usize_sub_underflows area.width
        ((HORIZ_VIEWPORT_GAP + HORIZ_BORDER_WIDTH + HORIZ_PADDING) * 2) ∧
     ¬ usize_sub_underflows area.height
        ((VERT_VIEWPORT_GAP + VERT_BORDER_WIDTH + VERT_PADDING) * 2)) ↔
    (18 ≤ area.width ∧ 10 ≤ area.height) := by
  simp only [usize_sub_underflows, HORIZ_VIEWPORT_GAP, HORIZ_BORDER_WIDTH,
    HORIZ_PADDING, VERT_VIEWPORT_GAP, VERT_BORDER_WIDTH, VERT_PADDING]
  omega

/-- C10: the panel-layout function takes the image-sizing path exactly for
texts strictly more than one row high; texts of height 0 or 1 — including a
one-row converted artwork — get the square-ish message sizing. -/
theorem c10_image_branch_iff_multirow (font_aspect : ℚ) (vp : Rect)
    (text : Text) :
    (1 < text.height →
      create_paragraph_sizing font_aspect vp text =
        image_panel_sizing text.width text.height) ∧
    (text.height ≤ 1 →
      create_paragraph_sizing font_aspect vp text =
        message_panel_sizing font_aspect vp) := by
  constructor <;> intro h
  · rw [create_paragraph_sizing, if_pos h, image_panel_sizing]
  · rw [create_paragraph_sizing, if_neg (by omega), message_panel_sizing]

/-- Witness for C10: a one-row text is laid out with the message sizing. -/
theorem c10_image_branch_iff_multirow_witness :
    create_paragraph_sizing 1 vp0 one_row_text = message_panel_sizing 1 vp0 :=
  (c10_image_branch_iff_multirow 1 vp0 one_row_text).2 (by decide)

end AlbumArtViewer
